import Mathlib

/-!
Shallow embedding of the post-and-engagement subsystem of the Insta
repository: the Express controller `src/backend/controllers/post.controller.js`
and the mongoose model file defining `commentSchema` and `postSchema`.

Opaque document ids (mongoose ObjectIds) are modelled as `Nat`.  Mongoose
arrays are `List Nat` (JS `push` appends at the end, `filter` keeps matching
elements, `includes` is membership by value — mongoose overrides array
equality for ObjectIds).  The observable outcome of a handler — `res.status(n)
.json` with success and message — is a `Response`.  Persistence (`post.save()`,
`Post.create`) runs mongoose schema validation; the relevant schema rules
(`mediaType` required with enum image/video, comment `content` required and
trimmed) are modelled in `schemaValid` / `savePost`.  External collaborators
(Cloudinary upload/destroy) are modelled by passing their outcome as an
explicit parameter; the local temp file and remote object stores are explicit
fields of `Env`.
-/

namespace Insta

/-- A comment subdocument (`commentSchema`): `content` is a trimmed required
string, `author` a user id.  The `trim: true` setter runs when the comment is
pushed, so the content of a stored comment is already trimmed. -/
structure Comment where
  content : String
  author : Nat
deriving DecidableEq, Repr

/-- A post document (`postSchema`). -/
structure Post where
  id : Nat
  caption : Option String
  image : Option String
  video : Option String
  mediaType : Option String
  author : Nat
  likes : List Nat
  comments : List Comment
  bookmarks : List Nat
deriving DecidableEq, Repr

/-- A user document; only the `bookmarks` field is touched by this
controller. -/
structure User where
  id : Nat
  bookmarks : List Nat
deriving DecidableEq, Repr

/-- The observable part of `res.status(n).json({success, message})`. -/
structure Response where
  status : Nat
  success : Bool
  message : String
deriving DecidableEq, Repr

/-- Field `postSchema.mediaType`: `required: true` with an enum of image/video —
a document with no `mediaType` (or any other value) fails validation. -/
def validMediaType : Option String → Bool
  | some s => s == "image" || s == "video"
  | none => false

/-- Mongoose document validation of `postSchema`: `mediaType` is required and
enum-restricted; the `content` of every embedded comment is required (a string that
is empty after the `trim` setter fails `required`). -/
def schemaValid (p : Post) : Bool :=
  validMediaType p.mediaType && p.comments.all (fun c => c.content != "")

/-- Persistence point `post.save()` / `Post.create`: validates the document and either persists
it unchanged or rejects with a ValidationError. -/
def savePost (p : Post) : Except String Post :=
  if schemaValid p then .ok p else .error "ValidationError"

/-- Handler `likePost` (controller lines 146-177), applied to the result of
`Post.findById`.  Second component is the persisted post state afterwards
(`none` when the post does not exist). -/
def likePost (findResult : Option Post) (userId : Nat) :
    Response × Option Post :=
  match findResult with
  | none => (⟨404, false, "Post not found"⟩, none)
  | some post =>
    if post.likes.contains userId then
      (⟨400, false, "Post already liked"⟩, some post)
    else
      match savePost { post with likes := post.likes ++ [userId] } with
      | .ok saved => (⟨200, true, "Post liked successfully"⟩, some saved)
      | .error msg => (⟨500, false, msg⟩, some post)

/-- Handler `dislikePost` (controller lines 179-210): rejects when the user has not
liked the post, else removes the id by `filter(id => id.toString() !==
req.user._id.toString())`. -/
def dislikePost (findResult : Option Post) (userId : Nat) :
    Response × Option Post :=
  match findResult with
  | none => (⟨404, false, "Post not found"⟩, none)
  | some post =>
    if !(post.likes.contains userId) then
      (⟨400, false, "Post not liked yet"⟩, some post)
    else
      match savePost { post with likes := post.likes.filter (fun id => id != userId) } with
      | .ok saved => (⟨200, true, "Post disliked successfully"⟩, some saved)
      | .error msg => (⟨500, false, msg⟩, some post)

/-- The mongoose `trim: true` setter (JS `String.prototype.trim`): strips
leading and trailing whitespace.  Written structurally over the character
list so that it evaluates. -/
def trimString (s : String) : String :=
  String.mk (((s.data.dropWhile Char.isWhitespace).reverse.dropWhile
    Char.isWhitespace).reverse)

/-- Casting `{content: req.body.text, author}` into the comment
DocumentArray runs the `trim: true` setter on `content`. -/
def mkComment (text : String) (author : Nat) : Comment :=
  ⟨trimString text, author⟩

/-- Handler `addComment` (controller lines 212-248): pushes the comment onto
`post.comments` and saves; a save-time ValidationError (empty trimmed
content) lands in the catch block as a 500 and nothing is persisted. -/
def addComment (findResult : Option Post) (userId : Nat) (text : String) :
    Response × Option Post :=
  match findResult with
  | none => (⟨404, false, "Post not found"⟩, none)
  | some post =>
    match savePost { post with comments := post.comments ++ [mkComment text userId] } with
    | .ok saved => (⟨200, true, "Comment added successfully"⟩, some saved)
    | .error msg => (⟨500, false, msg⟩, some post)

/-- Outcome of the remote `cloudinary.uploader.destroy` call, passed in
explicitly (the external service is a collaborator, not code under test). -/
inductive DestroyOutcome where
  | ok
  | err (msg : String)
deriving DecidableEq, Repr

/-- Handler `deletePost` (controller lines 274-310).  The remote destroy is awaited
inside the try block *before* `post.deleteOne()`: if it rejects, control
jumps to the catch block and the document is never removed.  Second component
is the persisted post state afterwards (`none` once deleted). -/
def deletePost (findResult : Option Post) (requesterId : Nat)
    (destroy : DestroyOutcome) : Response × Option Post :=
  match findResult with
  | none => (⟨404, false, "Post not found"⟩, none)
  | some post =>
    if post.author != requesterId then
      (⟨403, false, "Unauthorized to delete this post"⟩, some post)
    else
      if post.image.isSome || post.video.isSome then
        match destroy with
        | .err msg => (⟨500, false, msg⟩, some post)
        | .ok => (⟨200, true, "Post deleted successfully"⟩, none)
      else
        (⟨200, true, "Post deleted successfully"⟩, none)

/-- The in-memory toggle at the heart of `bookmarkPost` (controller lines
324-344): membership is read once from `post.bookmarks`, then either both
sides are filtered or both sides are pushed. -/
def toggleBookmarkCore (post : Post) (user : User) : Post × User :=
  if post.bookmarks.contains user.id then
    ({ post with bookmarks := post.bookmarks.filter (fun id => id != user.id) },
     { user with bookmarks := user.bookmarks.filter (fun id => id != post.id) })
  else
    ({ post with bookmarks := post.bookmarks ++ [user.id] },
     { user with bookmarks := user.bookmarks ++ [post.id] })

/-- Handler `bookmarkPost` (controller lines 312-351), applied to the `findById`
result and the already-loaded user document.  `Promise.all([post.save(),
user.save()])` issues both writes; the user write has no failing validation
in this model, so on a post-save ValidationError the user side may still have
committed (the documented dual-write caveat). -/
def bookmarkPost (findResult : Option Post) (user : User) :
    Response × Option Post × User :=
  match findResult with
  | none => (⟨404, false, "Post not found"⟩, none, user)
  | some post =>
    let msg := if post.bookmarks.contains user.id then
        "Post removed from bookmarks" else "Post bookmarked successfully"
    let pu := toggleBookmarkCore post user
    match savePost pu.1 with
    | .ok saved => (⟨200, true, msg⟩, some saved, pu.2)
    | .error m => (⟨500, false, m⟩, some post, pu.2)

/-- Lookup `Post.findById` over the post collection. -/
def findPost (db : List Post) (pid : Nat) : Option Post :=
  db.find? (fun p => p.id == pid)

/-- Persisting one saved post back into the collection. -/
def updatePostInDb (db : List Post) (p : Post) : List Post :=
  db.map (fun q => if q.id == p.id then p else q)

/-- Handler `bookmarkPost` at the route level: `Post.findById(req.params.id)` and
`User.findById(req.user._id)` both run before the existence check on the
post. -/
def bookmarkPostRoute (db : List Post) (user : User) (pid : Nat) :
    Response × List Post × User :=
  let r := bookmarkPost (findPost db pid) user
  match r.2.1 with
  | none => (r.1, db, r.2.2)
  | some p => (r.1, updatePostInDb db p, r.2.2)

/-- The MIME allow-list of `addNewPost` (controller line 39). -/
def allowedTypes : List String :=
  ["image/jpeg", "image/png", "image/jpg", "video/mp4"]

/-- JS falsiness of `req.body.caption`: absent (`undefined`) or the empty
string. -/
def strFalsy : Option String → Bool
  | none => true
  | some s => s == ""

/-- The multer upload descriptor `req.file`. -/
structure UploadFile where
  path : String
  mimetype : String
deriving DecidableEq, Repr

/-- Outcome of the remote `cloudinary.uploader.upload` call, passed in
explicitly. -/
inductive UploadOutcome where
  | ok (secureUrl : String) (resourceType : String)
  | err (msg : String)
deriving DecidableEq, Repr

/-- The request to `addNewPost`: body caption, optional multer file, and the
authenticated user id `req.id` set by the auth middleware. -/
structure CreateReq where
  caption : Option String
  file : Option UploadFile
  userId : Option Nat
deriving DecidableEq, Repr

/-- The stores `addNewPost` touches: local temp files on disk, remote
Cloudinary objects, and the post collection (with the server-assigned next
id). -/
structure Env where
  tempFiles : List String
  remote : List String
  posts : List Post
  nextId : Nat
deriving DecidableEq, Repr

/-- Result of an `addNewPost` call: the HTTP response, the resulting store
state, and whether the remote upload call was ever issued. -/
structure CreateResult where
  response : Response
  env : Env
  uploadAttempted : Bool
deriving DecidableEq, Repr

/-- Cleanup `unlinkAsync(file.path)`: the temp file is removed from local disk. -/
def removeTemp (env : Env) (p : String) : Env :=
  { env with tempFiles := env.tempFiles.filter (fun q => q != p) }

/-- The `postData` object literal (controller lines 75-82): the media fields
are spread in only when `mediaUrl` is truthy, keyed `video` or `image` by
whether `mediaType` is the video kind; the caption passes the schema `trim`
setter. -/
def postDataOf (uid : Nat) (caption : Option String)
    (mediaUrl mediaType : String) (pid : Nat) : Post :=
  { id := pid
    caption := caption.map trimString
    image := if mediaUrl != "" && mediaType != "video" then some mediaUrl else none
    video := if mediaUrl != "" && mediaType == "video" then some mediaUrl else none
    mediaType := if mediaUrl != "" then some mediaType else none
    author := uid
    likes := []
    comments := []
    bookmarks := [] }

/-- Creation `Post.create(postData)` and the surrounding response logic: a mongoose
ValidationError propagates to the outer catch (500, nothing persisted). -/
def createPostDoc (uid : Nat) (caption : Option String)
    (mediaUrl mediaType : String) (attempted : Bool) (env : Env) : CreateResult :=
  match savePost (postDataOf uid caption mediaUrl mediaType env.nextId) with
  | .ok p =>
    ⟨⟨201, true, "Post created successfully"⟩,
      { env with posts := env.posts ++ [p], nextId := env.nextId + 1 }, attempted⟩
  | .error msg => ⟨⟨500, false, msg⟩, env, attempted⟩

/-- Handler `addNewPost` (controller lines 11-106).  Order of checks: auth, the
"both absent" guard, then per-file MIME validation, upload, temp-file
cleanup, and finally `Post.create`. -/
def addNewPost (req : CreateReq) (upload : UploadOutcome) (env : Env) :
    CreateResult :=
  match req.userId with
  | none => ⟨⟨401, false, "Authentication required"⟩, env, false⟩
  | some uid =>
    if req.file.isNone && strFalsy req.caption then
      ⟨⟨400, false, "Please provide either a caption or media file"⟩, env, false⟩
    else
      match req.file with
      | none => createPostDoc uid req.caption "" "" false env
      | some file =>
        if !(allowedTypes.contains file.mimetype) then
          ⟨⟨400, false, "Invalid file type. Only JPEG, PNG, and MP4 are allowed"⟩,
            removeTemp env file.path, false⟩
        else
          match upload with
          | .err msg =>
            ⟨⟨500, false, msg⟩, removeTemp env file.path, true⟩
          | .ok url rtype =>
            createPostDoc uid req.caption url rtype true
              (removeTemp { env with remote := env.remote ++ [url] } file.path)

/-! General list facts used by several proofs below. -/

theorem mem_filter_ne {α : Type} [BEq α] [LawfulBEq α] (l : List α) (a x : α) :
    x ∈ l.filter (fun id => id != a) ↔ x ∈ l ∧ x ≠ a := by
  simp [List.mem_filter, bne_iff_ne]

theorem filter_ne_append_singleton_mem {α : Type} [BEq α] [LawfulBEq α]
    (l : List α) (a : α) (ha : a ∈ l) (x : α) :
    x ∈ l.filter (fun id => id != a) ++ [a] ↔ x ∈ l := by
  by_cases hx : x = a
  · subst hx; simp [ha]
  · simp [mem_filter_ne, hx]

theorem append_singleton_filter_ne_mem {α : Type} [BEq α] [LawfulBEq α]
    (l : List α) (a : α) (ha : a ∉ l) (x : α) :
    x ∈ (l ++ [a]).filter (fun id => id != a) ↔ x ∈ l := by
  by_cases hx : x = a
  · subst hx; simp [mem_filter_ne, ha]
  · simp [mem_filter_ne, hx]

theorem nodup_append_singleton {α : Type} (l : List α) (a : α)
    (hl : l.Nodup) (ha : a ∉ l) : (l ++ [a]).Nodup := by
  simp [List.nodup_append, hl, ha, List.disjoint_singleton]

/-! Claim theorems. -/

/-- Claim C1 (code bug): at the very scenario named by the claim — caption
"hello", no attachment, authenticated user — `addNewPost` does not create a
caption-only post with `media == null`.  The `postData` it builds carries no
`mediaType`, yet `postSchema.mediaType` is `required: true`, so `Post.create`
rejects the document; the handler answers 500 and the post collection is left
empty.  The controller plainly intends caption-only posts (its own guard says
"Please provide either a caption or media file"), so the schema contradicts
the controller. -/
theorem addNewPost_caption_only_hits_required_media_type :
    addNewPost ⟨some "hello", none, some 1⟩ (.err "unused") ⟨[], [], [], 0⟩ =
      ⟨⟨500, false, "ValidationError"⟩, ⟨[], [], [], 0⟩, false⟩ := by
  rfl

/-- Claim C2 counterexample: an author-issued delete of an existing post that
carries media, where the remote destroy fails, does NOT remove the post
document — the rejected `await cloudinary.uploader.destroy` jumps to the
catch block before `post.deleteOne()` runs, so the persisted state still
holds the post and the handler reports failure. -/
theorem deletePost_destroy_failure_blocks_removal :
    (deletePost (some ⟨3, some "c", some "url", none, some "image", 1, [], [], []⟩) 1
        (.err "destroy failed")).2 =
      some ⟨3, some "c", some "url", none, some "image", 1, [], [], []⟩ ∧
    (deletePost (some ⟨3, some "c", some "url", none, some "image", 1, [], [], []⟩) 1
        (.err "destroy failed")).1.success = false := by
  exact ⟨rfl, rfl⟩

/-- Claim C2 amended: for a deletePost call by the author of an existing post
that carries media, the document is removed only when the remote
media-deletion call succeeds; when the remote call fails, the whole operation
fails and the post document is NOT removed (remote cleanup is blocking, not
advisory). -/
theorem deletePost_removal_requires_destroy_success (post : Post)
    (requesterId : Nat) (hauth : post.author = requesterId)
    (hmedia : (post.image.isSome || post.video.isSome) = true) :
    (∀ msg, deletePost (some post) requesterId (.err msg) =
      (⟨500, false, msg⟩, some post)) ∧
    deletePost (some post) requesterId .ok =
      (⟨200, true, "Post deleted successfully"⟩, none) := by
  subst hauth
  constructor
  · intro msg
    simp [deletePost, hmedia]
  · simp [deletePost, hmedia]

theorem deletePost_removal_requires_destroy_success_witness :
    (⟨3, some "c", some "url", none, some "image", 1, [], [], []⟩ : Post).author = 1 ∧
    ((⟨3, some "c", some "url", none, some "image", 1, [], [], []⟩ : Post).image.isSome ||
      (⟨3, some "c", some "url", none, some "image", 1, [], [], []⟩ : Post).video.isSome) = true ∧
    deletePost (some ⟨3, some "c", some "url", none, some "image", 1, [], [], []⟩) 1 .ok =
      (⟨200, true, "Post deleted successfully"⟩, none) :=
  ⟨rfl, rfl,
    (deletePost_removal_requires_destroy_success
      ⟨3, some "c", some "url", none, some "image", 1, [], [], []⟩ 1 rfl rfl).2⟩

/-- Claim C3: for every existing post, `addComment` with content that is
empty or whitespace-only after trimming fails with a ValidationError (the
save-time mongoose rejection surfaces as the 500 branch) and the persisted
post — in particular `post.comments` — is unchanged. -/
theorem addComment_blank_content_rejected (post : Post) (userId : Nat)
    (text : String) (h : trimString text = "") :
    addComment (some post) userId text =
      (⟨500, false, "ValidationError"⟩, some post) := by
  have hs : schemaValid
      { post with comments := post.comments ++ [mkComment text userId] } = false := by
    simp [schemaValid, mkComment, h]
  simp [addComment, savePost, hs]

theorem addComment_blank_content_rejected_witness :
    trimString "   " = "" ∧
    addComment (some ⟨0, none, none, none, some "image", 7, [], [], []⟩) 2 "   " =
      (⟨500, false, "ValidationError"⟩,
        some ⟨0, none, none, none, some "image", 7, [], [], []⟩) :=
  ⟨rfl, addComment_blank_content_rejected _ 2 "   " rfl⟩

/-- Claim C7: for every post and every userId not in `post.likes`,
`dislikePost` answers the NotLiked rejection (400, "Post not liked yet") and
the persisted post is unchanged. -/
theorem dislikePost_not_liked_rejected (post : Post) (userId : Nat)
    (h : userId ∉ post.likes) :
    dislikePost (some post) userId =
      (⟨400, false, "Post not liked yet"⟩, some post) := by
  simp [dislikePost, h]

theorem dislikePost_not_liked_rejected_witness :
    (5 : Nat) ∉ [1, 2] ∧
    dislikePost (some ⟨0, none, none, none, some "image", 7, [1, 2], [], []⟩) 5 =
      (⟨400, false, "Post not liked yet"⟩,
        some ⟨0, none, none, none, some "image", 7, [1, 2], [], []⟩) :=
  ⟨by decide, dislikePost_not_liked_rejected _ 5 (by decide)⟩

/-- Claim C8: when both the caption and the attachment are absent/empty (for
an authenticated request), `addNewPost` rejects with the validation answer,
the stores are untouched (no post document created, no temp or remote change)
and the remote upload is never attempted. -/
theorem addNewPost_both_absent_rejected (req : CreateReq)
    (upload : UploadOutcome) (env : Env) (uid : Nat)
    (hu : req.userId = some uid) (hf : req.file = none)
    (hc : strFalsy req.caption = true) :
    addNewPost req upload env =
      ⟨⟨400, false, "Please provide either a caption or media file"⟩, env, false⟩ := by
  simp [addNewPost, hu, hf, hc]

theorem addNewPost_both_absent_rejected_witness :
    (⟨none, none, some 1⟩ : CreateReq).userId = some 1 ∧
    (⟨none, none, some 1⟩ : CreateReq).file = none ∧
    strFalsy (⟨none, none, some 1⟩ : CreateReq).caption = true ∧
    addNewPost ⟨none, none, some 1⟩ (.err "unused") ⟨[], [], [], 0⟩ =
      ⟨⟨400, false, "Please provide either a caption or media file"⟩,
        ⟨[], [], [], 0⟩, false⟩ :=
  ⟨rfl, rfl, rfl, addNewPost_both_absent_rejected _ _ _ 1 rfl rfl rfl⟩

/-- Claim C10: when the requested post id does not resolve to an existing
post, the bookmark route answers NotFound (404) and neither the post
collection nor the loaded user document is changed — even though the user was
loaded before the existence check. -/
theorem bookmarkPost_missing_post_not_found (db : List Post) (user : User)
    (pid : Nat) (h : findPost db pid = none) :
    bookmarkPostRoute db user pid = (⟨404, false, "Post not found"⟩, db, user) := by
  simp [bookmarkPostRoute, bookmarkPost, h]

theorem bookmarkPost_missing_post_not_found_witness :
    findPost [] 0 = none ∧
    bookmarkPostRoute [] ⟨1, [4]⟩ 0 = (⟨404, false, "Post not found"⟩, [], ⟨1, [4]⟩) :=
  ⟨rfl, bookmarkPost_missing_post_not_found [] ⟨1, [4]⟩ 0 rfl⟩

/-- Claim C6: starting from a post the user has not liked (and that passes
schema validation, so the save succeeds), the first `likePost` answers
success (200) and appends the user, the second answers the distinct
AlreadyLiked rejection (400, "Post already liked") without changing the
state, and afterwards `post.likes` contains the user exactly once. -/
theorem likePost_twice_already_liked (post : Post) (userId : Nat)
    (hnot : userId ∉ post.likes) (hv : schemaValid post = true) :
    likePost (some post) userId =
      (⟨200, true, "Post liked successfully"⟩,
        some { post with likes := post.likes ++ [userId] }) ∧
    likePost (some { post with likes := post.likes ++ [userId] }) userId =
      (⟨400, false, "Post already liked"⟩,
        some { post with likes := post.likes ++ [userId] }) ∧
    (post.likes ++ [userId]).count userId = 1 := by
  have hv' : schemaValid { post with likes := post.likes ++ [userId] } = true := hv
  refine ⟨?_, ?_, ?_⟩
  · simp [likePost, hnot, savePost, hv']
  · simp [likePost]
  · simp [List.count_append, List.count_eq_zero.mpr hnot]

theorem likePost_twice_already_liked_witness :
    ((5 : Nat) ∉ ([] : List Nat)) ∧
    schemaValid ⟨0, none, none, none, some "image", 7, [], [], []⟩ = true ∧
    (([] : List Nat) ++ [5]).count 5 = 1 :=
  ⟨by decide, rfl,
    (likePost_twice_already_liked ⟨0, none, none, none, some "image", 7, [], [], []⟩
      5 (by decide) rfl).2.2⟩

/-- Claim C5: for every post whose `likes` and `bookmarks` lists hold each
user id at most once, each engagement operation — like, dislike, and the
bookmark toggle — preserves that uniqueness in the persisted post: whatever
post state the operation persists still has `likes` and `bookmarks` without
duplicates. -/
theorem engagement_preserves_uniqueness (post : Post) (userId : Nat)
    (user : User) (hl : post.likes.Nodup) (hb : post.bookmarks.Nodup) :
    (∀ p, (likePost (some post) userId).2 = some p →
      p.likes.Nodup ∧ p.bookmarks.Nodup) ∧
    (∀ p, (dislikePost (some post) userId).2 = some p →
      p.likes.Nodup ∧ p.bookmarks.Nodup) ∧
    (∀ p, (bookmarkPost (some post) user).2.1 = some p →
      p.likes.Nodup ∧ p.bookmarks.Nodup) := by
  refine ⟨?_, ?_, ?_⟩
  · intro p hp
    by_cases hm : userId ∈ post.likes
    · simp [likePost, hm] at hp
      subst hp
      exact ⟨hl, hb⟩
    · cases hsv : schemaValid post with
      | true =>
        have hs : savePost { post with likes := post.likes ++ [userId] } =
            .ok { post with likes := post.likes ++ [userId] } := by
          have h1 : schemaValid { post with likes := post.likes ++ [userId] } = true := hsv
          simp [savePost, h1]
        simp [likePost, hm, hs] at hp
        subst hp
        exact ⟨nodup_append_singleton _ _ hl hm, hb⟩
      | false =>
        have hs : savePost { post with likes := post.likes ++ [userId] } =
            .error "ValidationError" := by
          have h1 : schemaValid { post with likes := post.likes ++ [userId] } = false := hsv
          simp [savePost, h1]
        simp [likePost, hm, hs] at hp
        subst hp
        exact ⟨hl, hb⟩
  · intro p hp
    by_cases hm : userId ∈ post.likes
    · cases hsv : schemaValid post with
      | true =>
        have hs : savePost
            { post with likes := post.likes.filter (fun id => id != userId) } =
            .ok { post with likes := post.likes.filter (fun id => id != userId) } := by
          have h1 : schemaValid
              { post with likes := post.likes.filter (fun id => id != userId) } = true := hsv
          simp [savePost, h1]
        simp [dislikePost, hm, hs] at hp
        subst hp
        exact ⟨hl.filter _, hb⟩
      | false =>
        have hs : savePost
            { post with likes := post.likes.filter (fun id => id != userId) } =
            .error "ValidationError" := by
          have h1 : schemaValid
              { post with likes := post.likes.filter (fun id => id != userId) } = false := hsv
          simp [savePost, h1]
        simp [dislikePost, hm, hs] at hp
        subst hp
        exact ⟨hl, hb⟩
    · simp [dislikePost, hm] at hp
      subst hp
      exact ⟨hl, hb⟩
  · intro p hp
    by_cases hm : user.id ∈ post.bookmarks
    · cases hsv : schemaValid post with
      | true =>
        have hs : savePost
            { post with bookmarks := post.bookmarks.filter (fun id => id != user.id) } =
            .ok { post with bookmarks := post.bookmarks.filter (fun id => id != user.id) } := by
          have h1 : schemaValid
              { post with bookmarks := post.bookmarks.filter (fun id => id != user.id) } = true := hsv
          simp [savePost, h1]
        simp [bookmarkPost, toggleBookmarkCore, hm, hs] at hp
        subst hp
        exact ⟨hl, hb.filter _⟩
      | false =>
        have hs : savePost
            { post with bookmarks := post.bookmarks.filter (fun id => id != user.id) } =
            .error "ValidationError" := by
          have h1 : schemaValid
              { post with bookmarks := post.bookmarks.filter (fun id => id != user.id) } = false := hsv
          simp [savePost, h1]
        simp [bookmarkPost, toggleBookmarkCore, hm, hs] at hp
        subst hp
        exact ⟨hl, hb⟩
    · cases hsv : schemaValid post with
      | true =>
        have hs : savePost
            { post with bookmarks := post.bookmarks ++ [user.id] } =
            .ok { post with bookmarks := post.bookmarks ++ [user.id] } := by
          have h1 : schemaValid
              { post with bookmarks := post.bookmarks ++ [user.id] } = true := hsv
          simp [savePost, h1]
        simp [bookmarkPost, toggleBookmarkCore, hm, hs] at hp
        subst hp
        exact ⟨hl, nodup_append_singleton _ _ hb hm⟩
      | false =>
        have hs : savePost
            { post with bookmarks := post.bookmarks ++ [user.id] } =
            .error "ValidationError" := by
          have h1 : schemaValid
              { post with bookmarks := post.bookmarks ++ [user.id] } = false := hsv
          simp [savePost, h1]
        simp [bookmarkPost, toggleBookmarkCore, hm, hs] at hp
        subst hp
        exact ⟨hl, hb⟩

theorem engagement_preserves_uniqueness_witness :
    ([1] : List Nat).Nodup ∧ ([2] : List Nat).Nodup ∧
    (∀ p, (likePost (some ⟨0, none, none, none, some "image", 7, [1], [], [2]⟩) 3).2 =
        some p → p.likes.Nodup ∧ p.bookmarks.Nodup) :=
  ⟨by decide, by decide,
    (engagement_preserves_uniqueness ⟨0, none, none, none, some "image", 7, [1], [], [2]⟩
      3 ⟨2, [0]⟩ (by decide) (by decide)).1⟩

theorem createPostDoc_uploadAttempted (uid : Nat) (caption : Option String)
    (u t : String) (a : Bool) (env : Env) :
    (createPostDoc uid caption u t a env).uploadAttempted = a := by
  unfold createPostDoc
  split <;> rfl

/-- Claim C9: the upload path accepts exactly the MIME types image/jpeg,
image/png, image/jpg and video/mp4 (the remote upload is attempted for
these and only these); any other type is rejected with the
UnsupportedMediaType answer (400, "Invalid file type..."), the local temp
file is released before returning, and neither a remote object nor a post
document is created. -/
theorem addNewPost_mime_allowlist (req : CreateReq) (upload : UploadOutcome)
    (env : Env) (uid : Nat) (file : UploadFile)
    (hu : req.userId = some uid) (hf : req.file = some file) :
    (∀ m, m ∈ allowedTypes ↔
      (m = "image/jpeg" ∨ m = "image/png" ∨ m = "image/jpg" ∨ m = "video/mp4")) ∧
    (file.mimetype ∈ allowedTypes →
      (addNewPost req upload env).uploadAttempted = true) ∧
    (file.mimetype ∉ allowedTypes →
      (addNewPost req upload env).response =
        ⟨400, false, "Invalid file type. Only JPEG, PNG, and MP4 are allowed"⟩ ∧
      file.path ∉ (addNewPost req upload env).env.tempFiles ∧
      (addNewPost req upload env).env.remote = env.remote ∧
      (addNewPost req upload env).env.posts = env.posts ∧
      (addNewPost req upload env).uploadAttempted = false) := by
  refine ⟨?_, ?_, ?_⟩
  · intro m
    simp [allowedTypes]
  · intro hmime
    cases upload with
    | ok url rtype =>
      simp [addNewPost, hu, hf, hmime, createPostDoc_uploadAttempted]
    | err msg =>
      simp [addNewPost, hu, hf, hmime]
  · intro hmime
    have hout : addNewPost req upload env =
        ⟨⟨400, false, "Invalid file type. Only JPEG, PNG, and MP4 are allowed"⟩,
          removeTemp env file.path, false⟩ := by
      simp [addNewPost, hu, hf, hmime]
    rw [hout]
    refine ⟨rfl, ?_, rfl, rfl, rfl⟩
    intro h
    exact ((mem_filter_ne env.tempFiles file.path file.path).mp h).2 rfl

theorem addNewPost_mime_allowlist_witness :
    (⟨some "c", some ⟨"tmp/x", "application/pdf"⟩, some 1⟩ : CreateReq).userId = some 1 ∧
    (⟨some "c", some ⟨"tmp/x", "application/pdf"⟩, some 1⟩ : CreateReq).file =
      some ⟨"tmp/x", "application/pdf"⟩ ∧
    "application/pdf" ∉ allowedTypes ∧
    (addNewPost ⟨some "c", some ⟨"tmp/x", "application/pdf"⟩, some 1⟩ (.err "unused")
        ⟨["tmp/x"], [], [], 0⟩).response =
      ⟨400, false, "Invalid file type. Only JPEG, PNG, and MP4 are allowed"⟩ :=
  ⟨rfl, rfl, by decide,
    ((addNewPost_mime_allowlist ⟨some "c", some ⟨"tmp/x", "application/pdf"⟩, some 1⟩
      (.err "unused") ⟨["tmp/x"], [], [], 0⟩ 1 ⟨"tmp/x", "application/pdf"⟩
      rfl rfl).2.2 (by decide)).1⟩

theorem toggleBookmarkCore_fst_id (post : Post) (user : User) :
    (toggleBookmarkCore post user).1.id = post.id := by
  unfold toggleBookmarkCore
  split <;> rfl

theorem toggleBookmarkCore_snd_id (post : Post) (user : User) :
    (toggleBookmarkCore post user).2.id = user.id := by
  unfold toggleBookmarkCore
  split <;> rfl

theorem schemaValid_toggleBookmarkCore (post : Post) (user : User) :
    schemaValid (toggleBookmarkCore post user).1 = schemaValid post := by
  unfold toggleBookmarkCore
  split <;> rfl

theorem toggleBookmarkCore_mem_eq (post : Post) (user : User) :
    (user.id ∈ post.bookmarks →
      (toggleBookmarkCore post user).1.bookmarks =
        post.bookmarks.filter (fun id => id != user.id) ∧
      (toggleBookmarkCore post user).2.bookmarks =
        user.bookmarks.filter (fun id => id != post.id)) ∧
    (user.id ∉ post.bookmarks →
      (toggleBookmarkCore post user).1.bookmarks = post.bookmarks ++ [user.id] ∧
      (toggleBookmarkCore post user).2.bookmarks = user.bookmarks ++ [post.id]) := by
  constructor
  · intro hm
    simp [toggleBookmarkCore, hm]
  · intro hm
    simp [toggleBookmarkCore, hm]

theorem bookmarkPost_state (post : Post) (user : User)
    (hv : schemaValid post = true) :
    (bookmarkPost (some post) user).2 =
      (some (toggleBookmarkCore post user).1, (toggleBookmarkCore post user).2) := by
  have h1 : savePost (toggleBookmarkCore post user).1 =
      .ok (toggleBookmarkCore post user).1 := by
    simp [savePost, schemaValid_toggleBookmarkCore, hv]
  simp [bookmarkPost, h1]

/-- Claim C4: for a schema-valid post and a user whose bookmark sets are
mirror-consistent for that pair, two successive `bookmarkPost` calls return
both `post.bookmarks` and `user.bookmarks` to their original membership
state (round trip), and after each single call the two sides stay
mirror-consistent: the user is in the post bookmark list iff the post is in
the user bookmark list. -/
theorem toggleBookmark_roundtrip_mirror (post : Post) (user : User)
    (hv : schemaValid post = true)
    (hm : user.id ∈ post.bookmarks ↔ post.id ∈ user.bookmarks) :
    ∃ p1 u1 p2 u2,
      (bookmarkPost (some post) user).2 = (some p1, u1) ∧
      (bookmarkPost (some p1) u1).2 = (some p2, u2) ∧
      (user.id ∈ p1.bookmarks ↔ post.id ∈ u1.bookmarks) ∧
      (user.id ∈ p2.bookmarks ↔ post.id ∈ u2.bookmarks) ∧
      (∀ x, x ∈ p2.bookmarks ↔ x ∈ post.bookmarks) ∧
      (∀ x, x ∈ u2.bookmarks ↔ x ∈ user.bookmarks) := by
  have hid1 := toggleBookmarkCore_fst_id post user
  have hid2 := toggleBookmarkCore_snd_id post user
  have hv1 : schemaValid (toggleBookmarkCore post user).1 = true := by
    rw [schemaValid_toggleBookmarkCore]
    exact hv
  by_cases hmem : user.id ∈ post.bookmarks
  · obtain ⟨hp1, hu1⟩ := (toggleBookmarkCore_mem_eq post user).1 hmem
    have hmem2 : post.id ∈ user.bookmarks := hm.mp hmem
    have hnm : (toggleBookmarkCore post user).2.id ∉
        (toggleBookmarkCore post user).1.bookmarks := by
      rw [hid2, hp1, mem_filter_ne]
      intro h
      exact h.2 rfl
    obtain ⟨hp2, hu2⟩ := (toggleBookmarkCore_mem_eq _ _).2 hnm
    refine ⟨_, _, _, _, bookmarkPost_state post user hv,
      bookmarkPost_state _ _ hv1, ?_, ?_, ?_, ?_⟩
    · rw [hp1, hu1]
      simp [mem_filter_ne]
    · rw [hp2, hu2, hid1, hid2]
      simp
    · intro x
      rw [hp2, hid2, hp1]
      exact filter_ne_append_singleton_mem post.bookmarks user.id hmem x
    · intro x
      rw [hu2, hid1, hu1]
      exact filter_ne_append_singleton_mem user.bookmarks post.id hmem2 x
  · obtain ⟨hp1, hu1⟩ := (toggleBookmarkCore_mem_eq post user).2 hmem
    have hmem2 : post.id ∉ user.bookmarks := fun h => hmem (hm.mpr h)
    have hym : (toggleBookmarkCore post user).2.id ∈
        (toggleBookmarkCore post user).1.bookmarks := by
      rw [hid2, hp1]
      simp
    obtain ⟨hp2, hu2⟩ := (toggleBookmarkCore_mem_eq _ _).1 hym
    refine ⟨_, _, _, _, bookmarkPost_state post user hv,
      bookmarkPost_state _ _ hv1, ?_, ?_, ?_, ?_⟩
    · rw [hp1, hu1]
      simp
    · rw [hp2, hu2, hid1, hid2, hp1, hu1]
      simp [append_singleton_filter_ne_mem post.bookmarks user.id hmem,
        append_singleton_filter_ne_mem user.bookmarks post.id hmem2, hmem, hmem2]
    · intro x
      rw [hp2, hid2, hp1]
      exact append_singleton_filter_ne_mem post.bookmarks user.id hmem x
    · intro x
      rw [hu2, hid1, hu1]
      exact append_singleton_filter_ne_mem user.bookmarks post.id hmem2 x

theorem toggleBookmark_roundtrip_mirror_witness :
    schemaValid ⟨0, none, none, none, some "image", 7, [], [], [2]⟩ = true ∧
    ((2 : Nat) ∈ [2] ↔ (0 : Nat) ∈ [0]) ∧
    (∃ p1 u1 p2 u2,
      (bookmarkPost (some ⟨0, none, none, none, some "image", 7, [], [], [2]⟩)
        ⟨2, [0]⟩).2 = (some p1, u1) ∧
      (bookmarkPost (some p1) u1).2 = (some p2, u2) ∧
      ((2 : Nat) ∈ p1.bookmarks ↔ (0 : Nat) ∈ u1.bookmarks) ∧
      ((2 : Nat) ∈ p2.bookmarks ↔ (0 : Nat) ∈ u2.bookmarks) ∧
      (∀ x, x ∈ p2.bookmarks ↔ x ∈ [2]) ∧
      (∀ x, x ∈ u2.bookmarks ↔ x ∈ [0])) :=
  ⟨rfl, by decide,
    toggleBookmark_roundtrip_mirror ⟨0, none, none, none, some "image", 7, [], [], [2]⟩
      ⟨2, [0]⟩ rfl (by decide)⟩

end Insta
